import Mathlib

/-!
Verification of the terminal emulation subsystem of the plato e-reader
(crates/core/src/view/terminal/): the double-buffered frame exchange
(buffer.rs), the incremental cell-diffing renderer (render.rs), the
VT100 emulator wrapper (emulator.rs), pty construction (pty.rs) and
keyboard input routing (session.rs), embedded shallowly as pure Lean
functions over explicit state.
-/

set_option autoImplicit false

namespace Terminal

/-! ## Geometry (from crates/core/src/geom.rs, used by the terminal code).

Modelled from the spec: `geom.rs` itself is outside the provided sources;
a `Rectangle` is an axis-aligned box given by its min and max corners, and
absorbing one rectangle into another forms the minimal bounding box of the
two ("union the cell's pixel rectangle into the running dirty rectangle",
"Dirty rectangle: the minimal bounding box of a screen region that
changed"). -/

structure Point where
  x : Int
  y : Int
deriving DecidableEq, Repr

structure Rectangle where
  min : Point
  max : Point
deriving DecidableEq, Repr

/-- Modelled from the spec: `Rectangle::absorb` extends `self` to the
minimal bounding box containing both rectangles. -/
def Rectangle.absorb (r s : Rectangle) : Rectangle :=
  { min := ⟨Min.min r.min.x s.min.x, Min.min r.min.y s.min.y⟩,
    max := ⟨Max.max r.max.x s.max.x, Max.max r.max.y s.max.y⟩ }

/-! ## Pixel surfaces (from crates/core/src/framebuffer.rs, as used by
buffer.rs).

Modelled from the spec: the `Pixmap` type lives outside the provided
sources; buffer.rs uses only its construction (`Pixmap::new(width, height,
1)`), its raw byte buffer `data`, and `data.copy_from_slice`. A pixmap is
a width × height surface of one byte per pixel. -/

structure Pixmap where
  width : Nat
  height : Nat
  data : List Nat
deriving DecidableEq, Repr

/-- Modelled from the spec: `Pixmap::new(width, height, 1)` allocates a
one-sample-per-pixel surface; the initial fill byte is irrelevant to the
claims below (255 = white). -/
def Pixmap.new (width height : Nat) : Pixmap :=
  { width := width, height := height, data := List.replicate (width * height) 255 }

/-- Rust's `dst.copy_from_slice(&src)`: byte-for-byte copy when the
lengths agree (Rust panics otherwise; the panicking case is never reached
by the code under proof, whose two surfaces are allocated with one size). -/
def copyFromSlice (dst src : List Nat) : List Nat :=
  if dst.length = src.length then src else dst

/-! ## DoubleBuffer / BufferWriter (crates/core/src/view/terminal/buffer.rs) -/

def MAX_DIRTY_RECTS : Nat := 16

/-- Writer-side handle: owns the back pixmap plus the single pending
dirty-rectangle accumulator. -/
structure BufferWriter where
  back : Pixmap
  dirty_rect : Option Rectangle
deriving DecidableEq, Repr

/-- Shared state protected by the mutex: front pixmap, bounded FIFO of
dirty rectangles, full-refresh flag. -/
structure DoubleBuffer where
  front : Pixmap
  dirty_rects : List Rectangle
  needs_full_refresh : Bool
deriving DecidableEq, Repr

namespace DoubleBuffer

/-- The constructor `DoubleBuffer::new`. -/
def new (width height : Nat) : DoubleBuffer × BufferWriter :=
  ({ front := Pixmap.new width height,
     dirty_rects := [],
     needs_full_refresh := false },
   { back := Pixmap.new width height,
     dirty_rect := none })

/-- The operation `DoubleBuffer::swap`: exchange front and back, move the writer's
pending dirty rectangle into the FIFO (clearing the FIFO and setting the
full-refresh flag instead when it is at capacity), then copy the new
front back into the writer's new back surface. -/
def swap (db : DoubleBuffer) (w : BufferWriter) : DoubleBuffer × BufferWriter :=
  -- std::mem::swap(&mut self.front, &mut writer.back)
  let newFront := w.back
  let newBack := db.front
  -- if let Some(rect) = writer.dirty_rect.take() { ... }
  let queued : List Rectangle × Bool :=
    match w.dirty_rect with
    | some rect =>
        if db.dirty_rects.length ≥ MAX_DIRTY_RECTS then
          ([], true)
        else
          (db.dirty_rects ++ [rect], db.needs_full_refresh)
    | none => (db.dirty_rects, db.needs_full_refresh)
  -- writer.back.data.copy_from_slice(&self.front.data)
  let copiedBack : Pixmap := { newBack with data := copyFromSlice newBack.data newFront.data }
  ({ front := newFront, dirty_rects := queued.1, needs_full_refresh := queued.2 },
   { back := copiedBack, dirty_rect := none })

/-- The consumer operation `DoubleBuffer::drain_dirty_rects`: yields and removes all queued
rectangles. -/
def drain_dirty_rects (db : DoubleBuffer) : List Rectangle × DoubleBuffer :=
  (db.dirty_rects, { db with dirty_rects := [] })

/-- The consumer operation `DoubleBuffer::take_full_refresh`: atomically read-and-clear the
full-refresh flag. -/
def take_full_refresh (db : DoubleBuffer) : Bool × DoubleBuffer :=
  (db.needs_full_refresh, { db with needs_full_refresh := false })

/-- The predicate `DoubleBuffer::is_dirty`. -/
def is_dirty (db : DoubleBuffer) : Bool :=
  db.needs_full_refresh || !db.dirty_rects.isEmpty

end DoubleBuffer

/-- One consumer/producer operation on the shared buffer state, used to
describe the reachable states of a session. -/
inductive BufOp where
  | swap (w : BufferWriter)
  | drain
  | takeFullRefresh
deriving Repr

/-- Apply one operation to the shared state (the writer returned by
`swap` is not tracked: only the shared state's reachability matters). -/
def applyBufOp (db : DoubleBuffer) : BufOp → DoubleBuffer
  | .swap w => (db.swap w).1
  | .drain => (db.drain_dirty_rects).2
  | .takeFullRefresh => (db.take_full_refresh).2

/-- The shared state after running a sequence of operations from the
initial state `DoubleBuffer::new width height`. -/
def runBufOps (width height : Nat) (ops : List BufOp) : DoubleBuffer :=
  ops.foldl applyBufOp (DoubleBuffer.new width height).1

/-! ## Colors (crates/core/src/color.rs as used by render.rs).

Modelled from the spec: the renderer only distinguishes BLACK and WHITE;
their concrete byte values are irrelevant to the claims. -/

def BLACK : Nat := 0
def WHITE : Nat := 255

/-! ## The vt100 crate's cell and screen interface, as consumed by
render.rs.

Modelled from the spec: the `vt100` crate is an external dependency; the
renderer reads, for each cell, its contents, inverse/bold flags, wide and
wide-continuation markers and background color, and for the screen its
size, its cursor position and its cells. -/

inductive VtColor where
  | default
  | indexed (n : Nat)
  | rgb (r g b : Nat)
deriving DecidableEq, Repr

structure Vt100Cell where
  contents : String
  inverse : Bool
  bold : Bool
  is_wide : Bool
  is_wide_continuation : Bool
  bgcolor : VtColor
deriving DecidableEq, Repr

structure Vt100Screen where
  rows : Nat
  cols : Nat
  cell : Nat → Nat → Option Vt100Cell
  cursor : Nat × Nat

/-! ## TerminalRenderer (crates/core/src/view/terminal/render.rs) -/

/-- The renderer-private per-cell snapshot used to detect change. -/
structure CellState where
  contents : String
  inverse : Bool
  bold : Bool
  is_wide : Bool
  is_wide_continuation : Bool
  has_bg : Bool
deriving DecidableEq, Repr

/-- Rust `CellState::default()`: empty contents, all flags false. -/
def CellState.default : CellState :=
  { contents := "", inverse := false, bold := false,
    is_wide := false, is_wide_continuation := false, has_bg := false }

instance : Inhabited CellState := ⟨CellState.default⟩

structure TerminalRenderer where
  char_width : Int
  char_height : Int
  baseline_offset : Int
  font_size : Nat
  previous_screen : Nat → Nat → CellState
  previous_cursor : Nat × Nat

/-- The snapshot render.rs builds from `screen.cell(row, col)`:
`cell.map(|c| CellState { .. }).unwrap_or_default()`. -/
def cellSnapshot (cell : Option Vt100Cell) : CellState :=
  match cell with
  | some c =>
      { contents := c.contents, inverse := c.inverse, bold := c.bold,
        is_wide := c.is_wide, is_wide_continuation := c.is_wide_continuation,
        has_bg := decide (c.bgcolor ≠ VtColor.default) }
  | none => CellState.default

/-- Painting is observed as the sequence of drawing commands issued to
the pixel surface and the font service (`pixmap.draw_rectangle` and
`font.render`). -/
inductive PaintOp where
  | fillRect (rect : Rectangle) (color : Nat)
  | glyph (contents : String) (color : Nat) (pt : Point)
deriving DecidableEq, Repr

/-- The pixel rectangle of grid cell (row, col). -/
def cellPixelRect (rend : TerminalRenderer) (row col : Nat) : Rectangle :=
  { min := ⟨(col : Int) * rend.char_width, (row : Int) * rend.char_height⟩,
    max := ⟨((col : Int) + 1) * rend.char_width, ((row : Int) + 1) * rend.char_height⟩ }

/-- The fixed-height cursor indicator rectangle drawn at the cursor cell. -/
def cursorIndicatorRect (rend : TerminalRenderer) (pos : Nat × Nat) : Rectangle :=
  let x := (pos.2 : Int) * rend.char_width
  let y := (pos.1 : Int) * rend.char_height
  { min := ⟨x, y + rend.char_height - 3⟩,
    max := ⟨x + rend.char_width, y + rend.char_height - 1⟩ }

/-- The routine `TerminalRenderer::render_vt100_cell`: paint one cell, returning the
issued drawing commands. A wide-continuation cell is skipped entirely. -/
def render_vt100_cell (rend : TerminalRenderer) (row col : Nat)
    (cell : Option Vt100Cell) : List PaintOp :=
  let x := (col : Int) * rend.char_width
  let y := (row : Int) * rend.char_height
  match cell with
  | some cell =>
      if cell.is_wide_continuation then []
      else
        let has_bg := decide (cell.bgcolor ≠ VtColor.default)
        let use_inverse := cell.inverse || has_bg
        let fg := if use_inverse then WHITE else BLACK
        let bg := if use_inverse then BLACK else WHITE
        let cell_width := if cell.is_wide then rend.char_width * 2 else rend.char_width
        let cell_rect : Rectangle := ⟨⟨x, y⟩, ⟨x + cell_width, y + rend.char_height⟩⟩
        let fill := [PaintOp.fillRect cell_rect bg]
        if cell.contents ≠ "" then
          fill ++ [PaintOp.glyph cell.contents fg ⟨x, y + rend.baseline_offset⟩]
        else
          fill
  | none =>
      [PaintOp.fillRect ⟨⟨x, y⟩, ⟨x + rend.char_width, y + rend.char_height⟩⟩ WHITE]

/-- Union a rectangle into the running dirty rectangle (`absorb` when one
is present, otherwise start it). -/
def absorbOpt (dirty : Option Rectangle) (r : Rectangle) : Option Rectangle :=
  match dirty with
  | some d => some (d.absorb r)
  | none => some r

/-- One iteration of the cell-diff loop body of `render_screen`: compare
the current snapshot with the stored one and repaint on difference. -/
def diffStep (rend : TerminalRenderer) (screen : Vt100Screen) (row col : Nat)
    (st : (Nat → Nat → CellState) × List PaintOp × Option Rectangle) :
    (Nat → Nat → CellState) × List PaintOp × Option Rectangle :=
  let cell := screen.cell row col
  let current := cellSnapshot cell
  if current ≠ st.1 row col then
    (fun r c => if r = row ∧ c = col then current else st.1 r c,
     st.2.1 ++ render_vt100_cell rend row col cell,
     absorbOpt st.2.2 (cellPixelRect rend row col))
  else st

/-- The inner `for col in 0..current_cols` loop at a fixed row. -/
def diffRowLoop (rend : TerminalRenderer) (screen : Vt100Screen) (row ncols : Nat)
    (st : (Nat → Nat → CellState) × List PaintOp × Option Rectangle) :
    (Nat → Nat → CellState) × List PaintOp × Option Rectangle :=
  (List.range ncols).foldl (fun st col => diffStep rend screen row col st) st

/-- The outer `for row in 0..current_rows` loop. -/
def diffLoop (rend : TerminalRenderer) (screen : Vt100Screen) (nrows ncols : Nat)
    (st : (Nat → Nat → CellState) × List PaintOp × Option Rectangle) :
    (Nat → Nat → CellState) × List PaintOp × Option Rectangle :=
  (List.range nrows).foldl (fun st row => diffRowLoop rend screen row ncols st) st

/-- The core algorithm `TerminalRenderer::render_screen`: repaint the old cursor cell if the
cursor moved, diff and repaint changed cells, then unconditionally draw
the cursor indicator; returns the updated renderer state, the issued
drawing commands, and the frame's dirty region. -/
def render_screen (rend : TerminalRenderer) (screen : Vt100Screen) :
    TerminalRenderer × List PaintOp × Option Rectangle :=
  -- Check for cursor movement
  let step1 : TerminalRenderer × List PaintOp × Option Rectangle :=
    if screen.cursor ≠ rend.previous_cursor then
      let orow := rend.previous_cursor.1
      let ocol := rend.previous_cursor.2
      let painted : List PaintOp × Option Rectangle :=
        if orow < screen.rows ∧ ocol < screen.cols then
          (render_vt100_cell rend orow ocol (screen.cell orow ocol),
           some (cellPixelRect rend orow ocol))
        else ([], none)
      ({ rend with previous_cursor := screen.cursor }, painted.1, painted.2)
    else (rend, [], none)
  -- Compare cells and render only changed ones
  let looped := diffLoop rend screen screen.rows screen.cols
    (step1.1.previous_screen, step1.2.1, step1.2.2)
  let rend2 : TerminalRenderer := { step1.1 with previous_screen := looped.1 }
  -- Draw cursor on current position
  if screen.cursor.1 < screen.rows ∧ screen.cursor.2 < screen.cols then
    let crect := cursorIndicatorRect rend screen.cursor
    (rend2, looped.2.1 ++ [PaintOp.fillRect crect BLACK], absorbOpt looped.2.2 crect)
  else
    (rend2, looped.2.1, looped.2.2)

/-- The function `TerminalRenderer::calculate_grid_for_font_size`. The font service is
external (§6): the measured glyph advance (`plan.width`) and the measured
`ascender - descender` enter as parameters. Rust's `i32` division
truncates toward zero (`Int.tdiv`), and the final `as u16` casts truncate
modulo 2^16. Returns (rows, cols). -/
def calculate_grid_for_font_size (available_width available_height : Int)
    (plan_width ascender_minus_descender : Int) : Nat × Nat :=
  let char_width := Max.max plan_width 1
  let line_height := Max.max ascender_minus_descender 1
  let cols := (Max.max (available_width.tdiv char_width) 20).toNat % 65536
  let rows := (Max.max (available_height.tdiv line_height) 10).toNat % 65536
  (rows, cols)

/-! ## Keyboard input routing (crates/core/src/view/terminal/session.rs,
`Terminal::handle_event`, `Event::Keyboard` arm) -/

/-- The keyboard events routed to the pty (crate-level `KeyboardEvent`;
the wildcard arm of the match is `other`). -/
inductive KeyboardEvent where
  | append (c : Char)
  | submit
  | delete
  | raw (bytes : List Nat)
  | control (c : Char)
  | other
deriving Repr

/-- UTF-8 encoding of a Unicode scalar value, as Rust's
`char::to_string().as_bytes()` produces it. -/
def utf8EncodeChar (n : Nat) : List Nat :=
  if n < 0x80 then [n]
  else if n < 0x800 then [0xC0 + n / 64, 0x80 + n % 64]
  else if n < 0x10000 then
    [0xE0 + n / 4096, 0x80 + n / 64 % 64, 0x80 + n % 64]
  else
    [0xF0 + n / 262144, 0x80 + n / 4096 % 64, 0x80 + n / 64 % 64, 0x80 + n % 64]

/-- Rust `char::to_ascii_uppercase` at the scalar-value level: maps
`'a'..='z'` to `'A'..='Z'`, leaves every other scalar unchanged. -/
def asciiUpper (n : Nat) : Nat :=
  if 97 ≤ n ∧ n ≤ 122 then n - 32 else n

/-- The bytes `Terminal::handle_event` writes to the pty for one keyboard
event. The `control` arm is `ch.to_ascii_uppercase() as u8 - b'A' + 1` in
`u8` arithmetic: `as u8` truncates modulo 256 and `- 65 + 1` wraps, i.e.
adds 192 modulo 256. -/
def ptyBytesForEvent : KeyboardEvent → List Nat
  | .append c => utf8EncodeChar c.toNat
  | .submit => [13]
  | .delete => [127]
  | .raw bytes => bytes
  | .control c => [(asciiUpper c.toNat % 256 + 192) % 256]
  | .other => []

/-! ## Pty (crates/core/src/view/terminal/pty.rs)

The `portable_pty` crate is an external boundary: the three fallible
calls `openpty`, `spawn_command` and `take_writer` enter as
`Except`-valued oracles, so `Pty::spawn` is the composition the source
performs with `?` on each. -/

/-- The fully constructed Pty value: which shell was launched, the TERM
variable set in its environment, the grid size the pty was opened with,
and possession of the writer handle. -/
structure PtyState where
  shell_path : String
  term_env : String
  rows : Nat
  cols : Nat
  has_writer : Bool
deriving DecidableEq, Repr

namespace Pty

/-- The constructor `Pty::spawn`: open the pty, default the shell to `/bin/sh`, set
`TERM=xterm-256color`, spawn the shell, take the writer; the first
failing step aborts with its `context` error and no `PtyState` is
produced. -/
def spawn (shell : Option String) (rows cols : Nat)
    (openpty : Except String Unit)
    (spawn_command : String → Except String Unit)
    (take_writer : Except String Unit) : Except String PtyState :=
  match openpty with
  | .error _ => .error "Failed to open PTY"
  | .ok () =>
    let shell_path := shell.getD "/bin/sh"
    match spawn_command shell_path with
    | .error _ => .error "Failed to spawn shell"
    | .ok () =>
      match take_writer with
      | .error _ => .error "Failed to get writer"
      | .ok () =>
        .ok { shell_path := shell_path, term_env := "xterm-256color",
              rows := rows, cols := cols, has_writer := true }

end Pty

/-! ## Emulator (crates/core/src/view/terminal/emulator.rs)

Modelled from the spec: the `vt100` crate's `Parser` is an external
dependency; per §4.2 it is a deterministic state machine that "interprets
control sequences to move the cursor, change cell attributes, scroll, or
clear regions, and writes printable characters into grid cells". The
scrollback depth (1000) only affects history, which `screen()` does not
expose, and is not modelled. -/

structure VTCell where
  contents : String
  inverse : Bool
  bold : Bool
deriving DecidableEq, Repr

def VTCell.blank : VTCell := { contents := "", inverse := false, bold := false }

structure VTScreen where
  rows : Nat
  cols : Nat
  cells : List (List VTCell)
  cursor_row : Nat
  cursor_col : Nat
  inverse : Bool
  bold : Bool
deriving DecidableEq, Repr

/-- Parser mode: ground, after ESC, or inside a CSI sequence. -/
inductive VTMode where
  | ground
  | escape
  | csi (params : List Nat) (cur : Nat)
deriving DecidableEq, Repr

structure ParserState where
  screen : VTScreen
  mode : VTMode
deriving DecidableEq, Repr

def setGridCell (g : List (List VTCell)) (r c : Nat) (v : VTCell) :
    List (List VTCell) :=
  g.set r ((g.getD r []).set c v)

def blankRow (cols : Nat) : List VTCell := List.replicate cols VTCell.blank

/-- Scroll the grid up one line, blanking the last row. -/
def scrollUp (s : VTScreen) : VTScreen :=
  { s with cells := s.cells.drop 1 ++ [blankRow s.cols] }

/-- Line feed: advance the cursor one row, scrolling at the bottom. -/
def lineFeed (s : VTScreen) : VTScreen :=
  if s.cursor_row + 1 < s.rows then { s with cursor_row := s.cursor_row + 1 }
  else scrollUp s

/-- Write one printable byte at the cursor with the current attributes
and advance, wrapping at the right margin. -/
def putChar (s : VTScreen) (b : Nat) : VTScreen :=
  let cell : VTCell :=
    { contents := String.singleton (Char.ofNat b), inverse := s.inverse, bold := s.bold }
  let s := { s with cells := setGridCell s.cells s.cursor_row s.cursor_col cell }
  if s.cursor_col + 1 < s.cols then { s with cursor_col := s.cursor_col + 1 }
  else lineFeed { s with cursor_col := 0 }

/-- Apply one SGR parameter: 0 reset, 1 bold, 7 inverse, 22/27 clear. -/
def applySgr (s : VTScreen) (p : Nat) : VTScreen :=
  if p = 0 then { s with inverse := false, bold := false }
  else if p = 1 then { s with bold := true }
  else if p = 7 then { s with inverse := true }
  else if p = 22 then { s with bold := false }
  else if p = 27 then { s with inverse := false }
  else s

/-- Dispatch a complete CSI sequence with final byte `b` and parameters
`ps`: cursor positioning (H), clear screen (J), clear to end of line (K),
attribute changes (m); anything else is ignored. -/
def csiDispatch (s : VTScreen) (ps : List Nat) (b : Nat) : VTScreen :=
  if b = 72 then -- 'H'
    let r := ps.getD 0 1
    let c := ps.getD 1 1
    { s with cursor_row := Min.min (r - 1) (s.rows - 1),
             cursor_col := Min.min (c - 1) (s.cols - 1) }
  else if b = 74 then -- 'J'
    { s with cells := List.replicate s.rows (blankRow s.cols) }
  else if b = 75 then -- 'K'
    let row := (s.cells.getD s.cursor_row []).take s.cursor_col
      ++ List.replicate (s.cols - s.cursor_col) VTCell.blank
    { s with cells := s.cells.set s.cursor_row row }
  else if b = 109 then -- 'm'
    ps.foldl applySgr s
  else s

/-- Process one input byte through the VT100 state machine. -/
def processByte (p : ParserState) (b : Nat) : ParserState :=
  match p.mode with
  | .ground =>
      if b = 27 then { p with mode := .escape }
      else if b = 13 then { p with screen := { p.screen with cursor_col := 0 } }
      else if b = 10 then { p with screen := lineFeed p.screen }
      else if b = 8 then
        { p with screen := { p.screen with cursor_col := p.screen.cursor_col - 1 } }
      else if 32 ≤ b ∧ b ≤ 126 then { p with screen := putChar p.screen b }
      else p
  | .escape =>
      if b = 91 then { p with mode := .csi [] 0 } -- '['
      else { p with mode := .ground }
  | .csi params cur =>
      if 48 ≤ b ∧ b ≤ 57 then { p with mode := .csi params (cur * 10 + (b - 48)) }
      else if b = 59 then { p with mode := .csi (params ++ [cur]) 0 } -- ';'
      else { p with mode := .ground,
                    screen := csiDispatch p.screen (params ++ [cur]) b }

structure Emulator where
  parser : ParserState
deriving DecidableEq, Repr

namespace Emulator

/-- The constructor `Emulator::new(rows, cols)`: a fresh parser over a blank grid with
the cursor at the origin. -/
def new (rows cols : Nat) : Emulator :=
  { parser :=
    { screen :=
      { rows := rows, cols := cols,
        cells := List.replicate rows (blankRow cols),
        cursor_row := 0, cursor_col := 0,
        inverse := false, bold := false },
      mode := .ground } }

/-- The operation `Emulator::feed(data)`: advance the state machine over the bytes. -/
def feed (e : Emulator) (data : List Nat) : Emulator :=
  { e with parser := data.foldl processByte e.parser }

/-- The accessor `Emulator::screen()`. -/
def screen (e : Emulator) : VTScreen :=
  e.parser.screen

end Emulator

/-! ## Sample values used by witnesses and counterexamples -/

def sampleRect : Rectangle := ⟨⟨0, 0⟩, ⟨1, 1⟩⟩

def samplePixmap : Pixmap := Pixmap.new 1 1

def writerWithRect : BufferWriter :=
  { back := samplePixmap, dirty_rect := some sampleRect }

def writerNoRect : BufferWriter :=
  { back := samplePixmap, dirty_rect := none }

def dbWithSixteen : DoubleBuffer :=
  { front := samplePixmap,
    dirty_rects := List.replicate 16 sampleRect,
    needs_full_refresh := false }

def sampleRenderer : TerminalRenderer :=
  { char_width := 8, char_height := 16, baseline_offset := 12, font_size := 80,
    previous_screen := fun _ _ => CellState.default, previous_cursor := (0, 0) }

def sampleScreen : Vt100Screen :=
  { rows := 1, cols := 1, cell := fun _ _ => none, cursor := (0, 0) }

def wideContinuationCell : Vt100Cell :=
  { contents := "", inverse := false, bold := false,
    is_wide := false, is_wide_continuation := true, bgcolor := VtColor.default }

/-! ## Claims about DoubleBuffer / BufferWriter -/

/-- C3: after any `swap` (of surfaces whose byte buffers have equal
length, as all surfaces of one session do), the writer's new back pixel
data is byte-identical to the shared front pixel data, and the shared
front is exactly what the writer's back was immediately before the
swap. -/
theorem swap_copy_back (db : DoubleBuffer) (w : BufferWriter)
    (h : db.front.data.length = w.back.data.length) :
    (db.swap w).2.back.data = (db.swap w).1.front.data
      ∧ (db.swap w).1.front = w.back := by
  simp [DoubleBuffer.swap, copyFromSlice, h]

/-- Witness for `swap_copy_back` at the freshly constructed 1×1 double
buffer. -/
theorem swap_copy_back_witness :
    (DoubleBuffer.new 1 1).1.front.data.length
        = (DoubleBuffer.new 1 1).2.back.data.length
      ∧ (((DoubleBuffer.new 1 1).1.swap (DoubleBuffer.new 1 1).2).2.back.data
          = ((DoubleBuffer.new 1 1).1.swap (DoubleBuffer.new 1 1).2).1.front.data
        ∧ ((DoubleBuffer.new 1 1).1.swap (DoubleBuffer.new 1 1).2).1.front
          = (DoubleBuffer.new 1 1).2.back) :=
  ⟨by decide, swap_copy_back _ _ (by decide)⟩

/-- C4: with a pending dirty rectangle, a swap against a queue already
holding 16 rectangles clears the queue and sets the full-refresh flag
(and an immediate drain yields zero rectangles), while a swap against a
queue holding fewer than 16 appends the rectangle. -/
theorem swap_queue_capacity (db : DoubleBuffer) (w : BufferWriter) (rect : Rectangle)
    (h : w.dirty_rect = some rect) :
    (db.dirty_rects.length = 16 →
      (db.swap w).1.dirty_rects = []
        ∧ (db.swap w).1.needs_full_refresh = true
        ∧ ((db.swap w).1.drain_dirty_rects).1 = [])
    ∧ (db.dirty_rects.length < 16 →
      (db.swap w).1.dirty_rects = db.dirty_rects ++ [rect]
        ∧ (db.swap w).1.needs_full_refresh = db.needs_full_refresh) := by
  constructor
  · intro h16
    simp [DoubleBuffer.swap, DoubleBuffer.drain_dirty_rects, h, MAX_DIRTY_RECTS, h16]
  · intro hlt
    simp [DoubleBuffer.swap, h, MAX_DIRTY_RECTS, Nat.not_le.mpr hlt]

/-- Witness for `swap_queue_capacity`: the 17th rectangle against a full
queue leaves the queue empty. -/
theorem swap_queue_capacity_witness :
    (dbWithSixteen.swap writerWithRect).1.dirty_rects = []
      ∧ (dbWithSixteen.swap writerWithRect).1.needs_full_refresh = true :=
  ⟨((swap_queue_capacity dbWithSixteen writerWithRect sampleRect rfl).1 (by decide)).1,
   ((swap_queue_capacity dbWithSixteen writerWithRect sampleRect rfl).1 (by decide)).2.1⟩

/-- C10: a swap whose writer carries no pending dirty rectangle leaves
the queue and the flag unchanged while still exchanging the surfaces and
copying back, and after every swap the writer's pending rectangle is
`none`. -/
theorem swap_without_rect (db : DoubleBuffer) (w : BufferWriter) :
    (db.swap w).2.dirty_rect = none
    ∧ (w.dirty_rect = none →
        (db.swap w).1.dirty_rects = db.dirty_rects
        ∧ (db.swap w).1.needs_full_refresh = db.needs_full_refresh
        ∧ (db.swap w).1.front = w.back
        ∧ (db.swap w).2.back.width = db.front.width
        ∧ (db.swap w).2.back.height = db.front.height
        ∧ (db.front.data.length = w.back.data.length →
            (db.swap w).2.back.data = (db.swap w).1.front.data)) := by
  refine ⟨by simp [DoubleBuffer.swap], ?_⟩
  intro hw
  simp [DoubleBuffer.swap, hw, copyFromSlice]
  intro hlen
  simp [hlen]

/-- One buffer operation never grows the dirty-rect queue past its
capacity. -/
theorem applyBufOp_length_le (db : DoubleBuffer) (op : BufOp)
    (h : db.dirty_rects.length ≤ MAX_DIRTY_RECTS) :
    (applyBufOp db op).dirty_rects.length ≤ MAX_DIRTY_RECTS := by
  cases op with
  | swap w =>
      cases hw : w.dirty_rect with
      | none => simpa [applyBufOp, DoubleBuffer.swap, hw] using h
      | some rect =>
          by_cases hlen : db.dirty_rects.length ≥ MAX_DIRTY_RECTS
          · simp [applyBufOp, DoubleBuffer.swap, hw, hlen]
          · simp only [applyBufOp, DoubleBuffer.swap, hw, if_neg hlen]
            simp only [List.length_append, List.length_cons, List.length_nil]
            omega
  | drain => simp [applyBufOp, DoubleBuffer.drain_dirty_rects]
  | takeFullRefresh => simpa [applyBufOp, DoubleBuffer.take_full_refresh] using h

/-- The queue bound is preserved along any operation sequence. -/
theorem foldl_applyBufOp_length_le (ops : List BufOp) :
    ∀ db : DoubleBuffer, db.dirty_rects.length ≤ MAX_DIRTY_RECTS →
      (ops.foldl applyBufOp db).dirty_rects.length ≤ MAX_DIRTY_RECTS := by
  induction ops with
  | nil => intro db h; simpa using h
  | cons op rest ih =>
      intro db h
      exact ih (applyBufOp db op) (applyBufOp_length_le db op h)

/-- C2 (amended): in every reachable DoubleBuffer state the dirty-rect
queue holds at most 16 rectangles, and whenever a swap turns the
full-refresh flag from false to true it simultaneously clears the queue;
the flag being true does not, however, keep the queue empty afterwards
(see `flag_and_queue_both_populated`). -/
theorem dirty_queue_bounded_and_cleared_on_set (width height : Nat) (ops : List BufOp) :
    (runBufOps width height ops).dirty_rects.length ≤ MAX_DIRTY_RECTS
    ∧ ∀ (db : DoubleBuffer) (w : BufferWriter),
        (db.swap w).1.needs_full_refresh = true →
        db.needs_full_refresh = false →
        (db.swap w).1.dirty_rects = [] := by
  constructor
  · exact foldl_applyBufOp_length_le ops _ (by simp [DoubleBuffer.new])
  · intro db w hset hwas
    cases hw : w.dirty_rect with
    | none =>
        rw [show (db.swap w).1.needs_full_refresh = db.needs_full_refresh by
          simp [DoubleBuffer.swap, hw]] at hset
        rw [hwas] at hset
        exact absurd hset (by simp)
    | some rect =>
        by_cases hlen : db.dirty_rects.length ≥ MAX_DIRTY_RECTS
        · simp [DoubleBuffer.swap, hw, hlen]
        · rw [show (db.swap w).1.needs_full_refresh = db.needs_full_refresh by
            simp [DoubleBuffer.swap, hw, hlen]] at hset
          rw [hwas] at hset
          exact absurd hset (by simp)

/-- Witness for `dirty_queue_bounded_and_cleared_on_set`: the bound at
the empty sequence, and the clearing at a full queue. -/
theorem dirty_queue_bounded_witness :
    (runBufOps 1 1 []).dirty_rects.length ≤ MAX_DIRTY_RECTS
      ∧ (dbWithSixteen.swap writerWithRect).1.dirty_rects = [] :=
  ⟨(dirty_queue_bounded_and_cleared_on_set 1 1 []).1,
   (dirty_queue_bounded_and_cleared_on_set 1 1 []).2 dbWithSixteen writerWithRect
     (by decide) (by decide)⟩

/-- C2 counterexample: eighteen consecutive swaps, each carrying a dirty
rectangle, reach a state where the full-refresh flag is set and the queue
is nonetheless nonempty — the claimed invariant fails. -/
theorem flag_and_queue_both_populated :
    (runBufOps 1 1 (List.replicate 18 (BufOp.swap writerWithRect))).needs_full_refresh = true
    ∧ (runBufOps 1 1 (List.replicate 18 (BufOp.swap writerWithRect))).dirty_rects ≠ [] := by
  decide

/-- Witness for `swap_without_rect` at a concrete rect-less writer. -/
theorem swap_without_rect_witness :
    writerNoRect.dirty_rect = none
      ∧ ((dbWithSixteen.swap writerNoRect).1.dirty_rects = dbWithSixteen.dirty_rects
        ∧ (dbWithSixteen.swap writerNoRect).1.needs_full_refresh
            = dbWithSixteen.needs_full_refresh) :=
  ⟨rfl,
   ((swap_without_rect dbWithSixteen writerNoRect).2 rfl).1,
   ((swap_without_rect dbWithSixteen writerNoRect).2 rfl).2.1⟩

/-! ## Claims about TerminalRenderer's grid computation -/

/-- C6 (amended): whenever the computed column and row counts fit in a
`u16`, `calculate_grid_for_font_size` returns exactly
`cols = max(20, width / cell_width)` and `rows = max(10, height /
line_height)`, hence `cols ≥ 20` and `rows ≥ 10`; the final `as u16`
casts truncate larger values modulo 2^16, which can drop below the
floors (see `calculate_grid_truncates`). -/
theorem calculate_grid_floor (w h pw amd : Int)
    (hc : Max.max (w.tdiv (Max.max pw 1)) 20 < 65536)
    (hr : Max.max (h.tdiv (Max.max amd 1)) 10 < 65536) :
    (calculate_grid_for_font_size w h pw amd).2
        = (Max.max (w.tdiv (Max.max pw 1)) 20).toNat
    ∧ (calculate_grid_for_font_size w h pw amd).1
        = (Max.max (h.tdiv (Max.max amd 1)) 10).toNat
    ∧ 20 ≤ (calculate_grid_for_font_size w h pw amd).2
    ∧ 10 ≤ (calculate_grid_for_font_size w h pw amd).1 := by
  have hc20 : (20 : Int) ≤ Max.max (w.tdiv (Max.max pw 1)) 20 := le_max_right _ _
  have hr10 : (10 : Int) ≤ Max.max (h.tdiv (Max.max amd 1)) 10 := le_max_right _ _
  simp only [calculate_grid_for_font_size]
  refine ⟨?_, ?_, ?_, ?_⟩ <;> omega

/-- Witness for `calculate_grid_floor` at an 800×600 area and a font so
large that one glyph is 900 pixels wide. -/
theorem calculate_grid_floor_witness :
    Max.max ((800 : Int).tdiv (Max.max 900 1)) 20 < 65536
    ∧ Max.max ((600 : Int).tdiv (Max.max 1200 1)) 10 < 65536
    ∧ 20 ≤ (calculate_grid_for_font_size 800 600 900 1200).2
    ∧ 10 ≤ (calculate_grid_for_font_size 800 600 900 1200).1 :=
  ⟨by decide, by decide,
   (calculate_grid_floor 800 600 900 1200 (by decide) (by decide)).2.2.1,
   (calculate_grid_floor 800 600 900 1200 (by decide) (by decide)).2.2.2⟩

/-- C6 counterexample: an i32 available width of 65536 with a measured
cell width of 1 makes `max(20, width / cell_width) = 65536`, and the
`as u16` cast truncates it to 0 columns — below the claimed floor of
20. -/
theorem calculate_grid_truncates :
    (calculate_grid_for_font_size 65536 600 1 16).2 = 0
    ∧ ¬ 20 ≤ (calculate_grid_for_font_size 65536 600 1 16).2 := by
  decide

/-! ## Claims about the Emulator -/

/-- C7: feeding the same byte sequence to two freshly constructed
emulators of the same grid size yields identical screens — the embedded
state machine is a pure function of the initial state and the input
bytes, so a two-run experiment can never distinguish the runs. -/
theorem emulator_deterministic (rows cols : Nat) (bytes1 bytes2 : List Nat)
    (h : bytes1 = bytes2) :
    ((Emulator.new rows cols).feed bytes1).screen
      = ((Emulator.new rows cols).feed bytes2).screen := by
  rw [h]

/-- Witness for `emulator_deterministic`: two runs over the bytes of
"hi\n" on an 4×4 grid. -/
theorem emulator_deterministic_witness :
    ([104, 105, 10] : List Nat) = [104, 105, 10]
    ∧ ((Emulator.new 4 4).feed [104, 105, 10]).screen
        = ((Emulator.new 4 4).feed [104, 105, 10]).screen :=
  ⟨rfl, emulator_deterministic 4 4 [104, 105, 10] [104, 105, 10] rfl⟩

/-! ## Claims about keyboard input routing -/

/-- C8: the session writes a lone carriage return (0x0D) for submit, the
lone DEL byte (127) for delete, raw byte sequences unchanged, and for a
Control chord on an ASCII letter the single byte
`uppercase(letter) - 'A' + 1`. -/
theorem keyboard_input_bytes :
    ptyBytesForEvent KeyboardEvent.submit = [13]
    ∧ ptyBytesForEvent KeyboardEvent.delete = [127]
    ∧ (∀ bytes, ptyBytesForEvent (KeyboardEvent.raw bytes) = bytes)
    ∧ (∀ c : Char,
        (65 ≤ c.toNat ∧ c.toNat ≤ 90) ∨ (97 ≤ c.toNat ∧ c.toNat ≤ 122) →
        ptyBytesForEvent (KeyboardEvent.control c)
          = [asciiUpper c.toNat - 65 + 1]) := by
  refine ⟨rfl, rfl, fun _ => rfl, ?_⟩
  intro c hc
  rcases hc with ⟨h1, h2⟩ | ⟨h1, h2⟩
  · have hu : asciiUpper c.toNat = c.toNat := by
      unfold asciiUpper
      rw [if_neg (show ¬(97 ≤ c.toNat ∧ c.toNat ≤ 122) by omega)]
    simp only [ptyBytesForEvent, hu, List.cons.injEq, and_true]
    omega
  · have hu : asciiUpper c.toNat = c.toNat - 32 := by
      unfold asciiUpper
      rw [if_pos ⟨h1, h2⟩]
    simp only [ptyBytesForEvent, hu, List.cons.injEq, and_true]
    omega

/-- Witness for `keyboard_input_bytes`: Control+c writes byte 3
(ETX). -/
theorem keyboard_input_bytes_witness :
    ((65 ≤ 'c'.toNat ∧ 'c'.toNat ≤ 90) ∨ (97 ≤ 'c'.toNat ∧ 'c'.toNat ≤ 122))
    ∧ ptyBytesForEvent (KeyboardEvent.control 'c') = [asciiUpper 'c'.toNat - 65 + 1] :=
  ⟨by decide, keyboard_input_bytes.2.2.2 'c' (by decide)⟩

/-! ## Claims about Pty construction -/

/-- C9: `Pty::spawn` is all-or-nothing: a successful result always
carries `TERM=xterm-256color`, the caller's shell (defaulting to
`/bin/sh`), the requested grid size and the writer handle, while a
failure of pty allocation, shell spawn, or writer acquisition yields an
error and no partly constructed value. -/
theorem pty_spawn_all_or_nothing (shell : Option String) (rows cols : Nat)
    (openpty : Except String Unit) (spawn_command : String → Except String Unit)
    (take_writer : Except String Unit) :
    (∀ p, Pty.spawn shell rows cols openpty spawn_command take_writer = .ok p →
        p.term_env = "xterm-256color"
        ∧ p.shell_path = shell.getD "/bin/sh"
        ∧ p.rows = rows ∧ p.cols = cols ∧ p.has_writer = true)
    ∧ ((∃ e, openpty = .error e)
        ∨ (∃ e, spawn_command (shell.getD "/bin/sh") = .error e)
        ∨ (∃ e, take_writer = .error e) →
      ∃ e, Pty.spawn shell rows cols openpty spawn_command take_writer = .error e) := by
  refine ⟨?_, ?_⟩
  · intro p hp
    cases openpty with
    | error e => simp [Pty.spawn] at hp
    | ok u =>
      cases u
      cases hs : spawn_command (shell.getD "/bin/sh") with
      | error e => simp [Pty.spawn, hs] at hp
      | ok u2 =>
        cases u2
        cases ht : take_writer with
        | error e => simp [Pty.spawn, hs, ht] at hp
        | ok u3 =>
          cases u3
          have hok : Pty.spawn shell rows cols (.ok ()) spawn_command take_writer
              = .ok { shell_path := shell.getD "/bin/sh", term_env := "xterm-256color",
                      rows := rows, cols := cols, has_writer := true } := by
            simp [Pty.spawn, hs, ht]
          rw [hok] at hp
          injection hp with hp
          subst hp
          exact ⟨rfl, rfl, rfl, rfl, rfl⟩
  · intro hfail
    cases openpty with
    | error e => exact ⟨"Failed to open PTY", rfl⟩
    | ok u =>
      cases u
      cases hs : spawn_command (shell.getD "/bin/sh") with
      | error e => exact ⟨"Failed to spawn shell", by simp [Pty.spawn, hs]⟩
      | ok u2 =>
        cases u2
        cases ht : take_writer with
        | error e => exact ⟨"Failed to get writer", by simp [Pty.spawn, hs, ht]⟩
        | ok u3 =>
          cases u3
          rcases hfail with ⟨e, he⟩ | ⟨e, he⟩ | ⟨e, he⟩ <;> simp [hs, ht] at he

/-- Witness for `pty_spawn_all_or_nothing`: the all-ok oracle produces
the fully constructed value, and a failing pty allocation produces an
error. -/
theorem pty_spawn_all_or_nothing_witness :
    (({ shell_path := "/bin/sh", term_env := "xterm-256color",
        rows := 24, cols := 80, has_writer := true } : PtyState).term_env
          = "xterm-256color"
      ∧ ({ shell_path := "/bin/sh", term_env := "xterm-256color",
           rows := 24, cols := 80, has_writer := true } : PtyState).shell_path
          = (Option.none).getD "/bin/sh"
      ∧ ({ shell_path := "/bin/sh", term_env := "xterm-256color",
           rows := 24, cols := 80, has_writer := true } : PtyState).rows = 24
      ∧ ({ shell_path := "/bin/sh", term_env := "xterm-256color",
           rows := 24, cols := 80, has_writer := true } : PtyState).cols = 80
      ∧ ({ shell_path := "/bin/sh", term_env := "xterm-256color",
           rows := 24, cols := 80, has_writer := true } : PtyState).has_writer = true)
    ∧ ∃ e, Pty.spawn none 24 80 (.error "no ptys") (fun _ => .ok ()) (.ok ())
        = .error e :=
  ⟨(pty_spawn_all_or_nothing none 24 80 (.ok ()) (fun _ => .ok ()) (.ok ())).1 _ rfl,
   (pty_spawn_all_or_nothing none 24 80 (.error "no ptys") (fun _ => .ok ()) (.ok ())).2
     (Or.inl ⟨"no ptys", rfl⟩)⟩

/-! ## Claims about per-cell painting -/

/-- C5: the per-cell paint routine issues no drawing command at all for a
wide-character continuation cell: it returns before any background fill
or glyph draw. -/
theorem wide_continuation_skipped (rend : TerminalRenderer) (row col : Nat)
    (cell : Vt100Cell) (h : cell.is_wide_continuation = true) :
    render_vt100_cell rend row col (some cell) = [] := by
  simp [render_vt100_cell, h]

/-- Witness for `wide_continuation_skipped` at a concrete continuation
cell. -/
theorem wide_continuation_skipped_witness :
    wideContinuationCell.is_wide_continuation = true
    ∧ render_vt100_cell sampleRenderer 0 1 (some wideContinuationCell) = [] :=
  ⟨rfl, wide_continuation_skipped sampleRenderer 0 1 wideContinuationCell rfl⟩

/-! ## The cell-diff loop of render_screen: characterization lemmas -/

theorem diffRowLoop_succ (rend : TerminalRenderer) (screen : Vt100Screen) (row n : Nat)
    (st : (Nat → Nat → CellState) × List PaintOp × Option Rectangle) :
    diffRowLoop rend screen row (n + 1) st
      = diffStep rend screen row n (diffRowLoop rend screen row n st) := by
  simp [diffRowLoop, List.range_succ, List.foldl_append]

theorem diffLoop_succ (rend : TerminalRenderer) (screen : Vt100Screen) (m ncols : Nat)
    (st : (Nat → Nat → CellState) × List PaintOp × Option Rectangle) :
    diffLoop rend screen (m + 1) ncols st
      = diffRowLoop rend screen m ncols (diffLoop rend screen m ncols st) := by
  simp [diffLoop, List.range_succ, List.foldl_append]

/-- One diff step changes the snapshot store at exactly its own cell, and
only when the comparison fires. -/
theorem diffStep_prev (rend : TerminalRenderer) (screen : Vt100Screen) (row col : Nat)
    (st : (Nat → Nat → CellState) × List PaintOp × Option Rectangle) (r c : Nat) :
    (diffStep rend screen row col st).1 r c
      = if r = row ∧ c = col ∧ cellSnapshot (screen.cell row col) ≠ st.1 row col
        then cellSnapshot (screen.cell row col)
        else st.1 r c := by
  simp only [diffStep]
  by_cases h : cellSnapshot (screen.cell row col) ≠ st.1 row col
  · rw [if_pos h]
    by_cases hrc : r = row ∧ c = col
    · obtain ⟨h1, h2⟩ := hrc
      subst h1; subst h2
      simp [h]
    · rw [if_neg (fun hco => hrc ⟨hco.1, hco.2.1⟩)]
      simp [hrc]
  · rw [if_neg h, if_neg (fun hco => h hco.2.2)]

/-- After the inner column loop, the snapshot store of its row agrees
with the screen on all processed columns and is untouched elsewhere. -/
theorem diffRowLoop_prev (rend : TerminalRenderer) (screen : Vt100Screen) (row : Nat)
    (st : (Nat → Nat → CellState) × List PaintOp × Option Rectangle) (n : Nat) :
    ∀ r c, (diffRowLoop rend screen row n st).1 r c
      = if r = row ∧ c < n then cellSnapshot (screen.cell r c) else st.1 r c := by
  induction n with
  | zero => intro r c; simp [diffRowLoop]
  | succ n ih =>
    intro r c
    rw [diffRowLoop_succ, diffStep_prev]
    have ihrow : (diffRowLoop rend screen row n st).1 row n = st.1 row n := by
      rw [ih row n, if_neg (by omega)]
    rw [ihrow, ih r c]
    by_cases h1 : r = row ∧ c = n
    · obtain ⟨hr, hc⟩ := h1
      by_cases h3 : cellSnapshot (screen.cell row n) ≠ st.1 row n
      · rw [if_pos ⟨hr, hc, h3⟩, if_pos ⟨hr, by omega⟩, hr, hc]
      · rw [if_neg (fun hco => h3 hco.2.2),
          if_neg (show ¬(r = row ∧ c < n) by rintro ⟨_, hlt⟩; omega),
          if_pos ⟨hr, by omega⟩, hr, hc]
        exact (not_ne_iff.mp h3).symm
    · rw [if_neg (fun hco => h1 ⟨hco.1, hco.2.1⟩)]
      by_cases h2 : r = row ∧ c < n
      · rw [if_pos h2, if_pos ⟨h2.1, by omega⟩]
      · rw [if_neg h2, if_neg (show ¬(r = row ∧ c < n + 1) by
          rintro ⟨hr, hlt⟩
          rcases Nat.lt_succ_iff_lt_or_eq.mp hlt with h | h
          · exact h2 ⟨hr, h⟩
          · exact h1 ⟨hr, h⟩)]

/-- If the snapshot store already agrees with the screen on a whole row,
the inner loop of that row is the identity: no repaint, no dirty
rectangle. -/
theorem diffRowLoop_stable (rend : TerminalRenderer) (screen : Vt100Screen) (row : Nat)
    (st : (Nat → Nat → CellState) × List PaintOp × Option Rectangle) (n : Nat)
    (h : ∀ c, c < n → st.1 row c = cellSnapshot (screen.cell row c)) :
    diffRowLoop rend screen row n st = st := by
  induction n with
  | zero => simp [diffRowLoop]
  | succ n ih =>
    rw [diffRowLoop_succ, ih (fun c hc => h c (by omega))]
    simp only [diffStep]
    rw [if_neg (show ¬(cellSnapshot (screen.cell row n) ≠ st.1 row n) by
      simp [h n (Nat.lt_succ_self n)])]

/-- After the full double loop, the snapshot store agrees with the
screen on every in-grid cell and is untouched outside. -/
theorem diffLoop_prev (rend : TerminalRenderer) (screen : Vt100Screen) (m ncols : Nat)
    (st : (Nat → Nat → CellState) × List PaintOp × Option Rectangle) (r c : Nat) :
    (diffLoop rend screen m ncols st).1 r c
      = if r < m ∧ c < ncols then cellSnapshot (screen.cell r c) else st.1 r c := by
  induction m with
  | zero => simp [diffLoop]
  | succ m ih =>
    rw [diffLoop_succ, diffRowLoop_prev, ih]
    by_cases h1 : r = m ∧ c < ncols
    · rw [if_pos h1, if_pos ⟨by omega, h1.2⟩]
    · rw [if_neg h1]
      by_cases h2 : r < m ∧ c < ncols
      · rw [if_pos h2, if_pos ⟨by omega, h2.2⟩]
      · rw [if_neg h2, if_neg (show ¬(r < m + 1 ∧ c < ncols) by
          rintro ⟨ha, hb⟩
          rcases Nat.lt_succ_iff_lt_or_eq.mp ha with h | h
          · exact h2 ⟨h, hb⟩
          · exact h1 ⟨h, hb⟩)]

/-- If the snapshot store already agrees with the screen on every
in-grid cell, the whole double loop is the identity. -/
theorem diffLoop_stable (rend : TerminalRenderer) (screen : Vt100Screen) (nrows ncols : Nat)
    (st : (Nat → Nat → CellState) × List PaintOp × Option Rectangle)
    (h : ∀ r, r < nrows → ∀ c, c < ncols → st.1 r c = cellSnapshot (screen.cell r c)) :
    diffLoop rend screen nrows ncols st = st := by
  induction nrows with
  | zero => simp [diffLoop]
  | succ m ih =>
    rw [diffLoop_succ, ih (fun r hr c hc => h r (by omega) c hc)]
    exact diffRowLoop_stable rend screen m st ncols (fun c hc => h m (by omega) c hc)

/-- After any `render_screen` call the stored cursor equals the screen's
cursor. -/
theorem render_screen_prev_cursor (rend : TerminalRenderer) (screen : Vt100Screen) :
    ((render_screen rend screen).1).previous_cursor = screen.cursor := by
  by_cases hcur : screen.cursor ≠ rend.previous_cursor
  · simp only [render_screen, if_pos hcur]
    split_ifs <;> rfl
  · simp only [render_screen, if_neg hcur]
    split_ifs <;> exact (not_ne_iff.mp hcur).symm

/-- The function `render_screen` never changes the renderer's cell metrics. -/
theorem render_screen_metrics (rend : TerminalRenderer) (screen : Vt100Screen) :
    ((render_screen rend screen).1).char_width = rend.char_width
      ∧ ((render_screen rend screen).1).char_height = rend.char_height := by
  constructor <;> (simp only [render_screen]; split_ifs <;> rfl)

/-- After any `render_screen` call the stored per-cell snapshots agree
with the screen on every in-grid cell and are untouched outside. -/
theorem render_screen_prev_screen (rend : TerminalRenderer) (screen : Vt100Screen)
    (r c : Nat) :
    ((render_screen rend screen).1).previous_screen r c
      = if r < screen.rows ∧ c < screen.cols then cellSnapshot (screen.cell r c)
        else rend.previous_screen r c := by
  simp only [render_screen]
  split_ifs <;> simp [diffLoop_prev, *]

/-- C1 (amended): a second `render_screen` with no intervening feed and
an unchanged cursor performs no cell repaint, but — because the cursor
indicator is redrawn unconditionally — its dirty region is the
cursor-indicator rectangle whenever the cursor lies inside the grid; it
is `none` only when the cursor lies outside the grid. -/
theorem render_screen_second_call (rend : TerminalRenderer) (screen : Vt100Screen) :
    (render_screen (render_screen rend screen).1 screen).2.2
      = if screen.cursor.1 < screen.rows ∧ screen.cursor.2 < screen.cols
        then some (cursorIndicatorRect (render_screen rend screen).1 screen.cursor)
        else none := by
  set r1 := (render_screen rend screen).1 with hr1
  have hcur : r1.previous_cursor = screen.cursor := by
    rw [hr1]; exact render_screen_prev_cursor rend screen
  have hstab : diffLoop r1 screen screen.rows screen.cols
      (r1.previous_screen, ([] : List PaintOp), (none : Option Rectangle))
        = (r1.previous_screen, [], none) := by
    apply diffLoop_stable
    intro r hr c hc
    show r1.previous_screen r c = cellSnapshot (screen.cell r c)
    rw [hr1, render_screen_prev_screen, if_pos ⟨hr, hc⟩]
  simp only [render_screen, if_neg (not_ne_iff.mpr hcur.symm)]
  rw [hstab]
  by_cases hin : screen.cursor.1 < screen.rows ∧ screen.cursor.2 < screen.cols
  · rw [if_pos hin, if_pos hin]
    rfl
  · rw [if_neg hin, if_neg hin]

/-- C1 counterexample: on a concrete renderer and a concrete 1×1 screen
with the cursor in the grid, the second `render_screen` call returns a
dirty region (the cursor-indicator rectangle), not `none`. -/
theorem render_screen_second_call_counterexample :
    (render_screen (render_screen sampleRenderer sampleScreen).1 sampleScreen).2.2
      ≠ none := by
  decide

end Terminal
